import Mathlib

/-!
Verification of the SIAF backend route handlers (Node/Express + SQLite).

The route handlers are shallowly embedded: the dynamic SQL strings are built by
the same successive concatenations as the source, bound parameters are collected
in the same order (numeric parameters rendered as decimal strings), and row
mutations are modelled as pure functions on lists of rows together with the
`changes` count that SQLite reports for an UPDATE.
-/

set_option maxRecDepth 16384

namespace SIAF

/-- JS truthiness of an optional request value: an absent value (`undefined`)
and the empty string are falsy, every other string is truthy. This is the test
performed by `if (status) ...` in the handlers. -/
def jsTruthy : Option String → Bool
  | none => false
  | some s => s != ""

/-- The underlying string of an optional request value (the handlers only read
it on the truthy branch, where it is present). -/
def optStr (v : Option String) : String := v.getD ""

/-- Number of `?` placeholders in a piece of SQL text. -/
def qmarkCount (s : String) : Nat := s.toList.count (Char.ofNat 63)

/-- Semantics of `UPDATE ... SET ... WHERE ...` on a table held as a list of
rows: every row satisfying the WHERE predicate is rewritten by the SET clause,
and `this.changes` is the number of matched rows. -/
def sqlUpdate {α : Type} (pred : α → Bool) (set : α → α) (db : List α) :
    List α × Nat :=
  (db.map fun r => if pred r then set r else r, (db.filter pred).length)

/-! ## Filtered list queries (page query and COUNT query)

`GET /` of the responsive-forms router (src/routes/responsiveForms.js, lines
21-101) and of the assets router (src/unnamed/part_000, lines 529-606), plus
the inventory report (src/unnamed/part_001, lines 86-128). Each handler builds
the page query and the count query by two independent chains of string
concatenations guarded by the truthiness of each filter value. -/

/-- Base SELECT of the responsive-forms page query (whitespace collapsed). -/
def rfListBase : String :=
  "SELECT rf.*, a.name as asset_name, a.asset_code, prev.full_name as previous_responsible_name, new.full_name as new_responsible_name, approver.full_name as approved_by_name FROM responsive_forms rf LEFT JOIN assets a ON rf.asset_id = a.id LEFT JOIN users prev ON rf.previous_responsible_id = prev.id LEFT JOIN users new ON rf.new_responsible_id = new.id LEFT JOIN users approver ON rf.approved_by = approver.id WHERE 1=1"

/-- Base SELECT of the responsive-forms COUNT query. -/
def rfCountBase : String :=
  "SELECT COUNT(*) as total FROM responsive_forms rf WHERE 1=1"

/-- Page query of `GET /` (responsive forms): text and ordered bound
parameters, built exactly as the source concatenates them. -/
def rfListQuery (status asset_id new_responsible_id : Option String)
    (limit offset : Nat) : String × List String :=
  let q0 : String × List String := (rfListBase, [])
  let q1 := if jsTruthy status then
      (q0.1 ++ " AND rf.status = ?", q0.2 ++ [optStr status]) else q0
  let q2 := if jsTruthy asset_id then
      (q1.1 ++ " AND rf.asset_id = ?", q1.2 ++ [optStr asset_id]) else q1
  let q3 := if jsTruthy new_responsible_id then
      (q2.1 ++ " AND rf.new_responsible_id = ?", q2.2 ++ [optStr new_responsible_id]) else q2
  (q3.1 ++ " ORDER BY rf.created_at DESC LIMIT ? OFFSET ?",
   q3.2 ++ [toString limit, toString offset])

/-- COUNT query of `GET /` (responsive forms), built by its own, second chain
of concatenations in the source. -/
def rfCountQuery (status asset_id new_responsible_id : Option String) :
    String × List String :=
  let q0 : String × List String := (rfCountBase, [])
  let q1 := if jsTruthy status then
      (q0.1 ++ " AND rf.status = ?", q0.2 ++ [optStr status]) else q0
  let q2 := if jsTruthy asset_id then
      (q1.1 ++ " AND rf.asset_id = ?", q1.2 ++ [optStr asset_id]) else q1
  let q3 := if jsTruthy new_responsible_id then
      (q2.1 ++ " AND rf.new_responsible_id = ?", q2.2 ++ [optStr new_responsible_id]) else q2
  q3

/-- WHERE-filter text of the responsive-forms list, one guarded predicate per
declared filter, in declaration order. -/
def rfWhere (status asset_id new_responsible_id : Option String) : String :=
  (if jsTruthy status then " AND rf.status = ?" else "")
    ++ (if jsTruthy asset_id then " AND rf.asset_id = ?" else "")
    ++ (if jsTruthy new_responsible_id then " AND rf.new_responsible_id = ?" else "")

/-- Bound parameters of the responsive-forms WHERE filters, in the same
declaration order. -/
def rfWhereParams (status asset_id new_responsible_id : Option String) :
    List String :=
  (if jsTruthy status then [optStr status] else [])
    ++ (if jsTruthy asset_id then [optStr asset_id] else [])
    ++ (if jsTruthy new_responsible_id then [optStr new_responsible_id] else [])

theorem rfListQuery_eq (s a n : Option String) (limit offset : Nat) :
    rfListQuery s a n limit offset
      = (rfListBase ++ rfWhere s a n ++ " ORDER BY rf.created_at DESC LIMIT ? OFFSET ?",
         rfWhereParams s a n ++ [toString limit, toString offset]) := by
  unfold rfListQuery rfWhere rfWhereParams
  cases jsTruthy s <;> cases jsTruthy a <;> cases jsTruthy n <;>
    simp [String.append_assoc]

theorem rfCountQuery_eq (s a n : Option String) :
    rfCountQuery s a n = (rfCountBase ++ rfWhere s a n, rfWhereParams s a n) := by
  unfold rfCountQuery rfWhere rfWhereParams
  cases jsTruthy s <;> cases jsTruthy a <;> cases jsTruthy n <;>
    simp [String.append_assoc]

/-- Base SELECT of the assets page query. -/
def assetsListBase : String :=
  "SELECT a.*, c.name as category_name, u.full_name as responsible_name FROM assets a LEFT JOIN asset_categories c ON a.category_id = c.id LEFT JOIN users u ON a.responsible_user_id = u.id WHERE 1=1"

/-- Base SELECT of the assets COUNT query. -/
def assetsCountBase : String :=
  "SELECT COUNT(*) as total FROM assets a WHERE 1=1"

/-- The `%...%` LIKE wildcard wrapping of the search value. -/
def likeTerm (v : Option String) : String := "%" ++ optStr v ++ "%"

/-- Page query of `GET /` (assets): category and status are exact matches, a
truthy search value contributes one parenthesised predicate with four LIKE
placeholders and pushes the wrapped term four times. -/
def assetsListQuery (category status search : Option String)
    (limit offset : Nat) : String × List String :=
  let q0 : String × List String := (assetsListBase, [])
  let q1 := if jsTruthy category then
      (q0.1 ++ " AND a.category_id = ?", q0.2 ++ [optStr category]) else q0
  let q2 := if jsTruthy status then
      (q1.1 ++ " AND a.status = ?", q1.2 ++ [optStr status]) else q1
  let q3 := if jsTruthy search then
      (q2.1 ++ " AND (a.name LIKE ? OR a.asset_code LIKE ? OR a.brand LIKE ? OR a.model LIKE ?)",
       q2.2 ++ [likeTerm search, likeTerm search, likeTerm search, likeTerm search]) else q2
  (q3.1 ++ " ORDER BY a.created_at DESC LIMIT ? OFFSET ?",
   q3.2 ++ [toString limit, toString offset])

/-- COUNT query of `GET /` (assets), again built by its own second chain. -/
def assetsCountQuery (category status search : Option String) :
    String × List String :=
  let q0 : String × List String := (assetsCountBase, [])
  let q1 := if jsTruthy category then
      (q0.1 ++ " AND a.category_id = ?", q0.2 ++ [optStr category]) else q0
  let q2 := if jsTruthy status then
      (q1.1 ++ " AND a.status = ?", q1.2 ++ [optStr status]) else q1
  let q3 := if jsTruthy search then
      (q2.1 ++ " AND (a.name LIKE ? OR a.asset_code LIKE ? OR a.brand LIKE ? OR a.model LIKE ?)",
       q2.2 ++ [likeTerm search, likeTerm search, likeTerm search, likeTerm search]) else q2
  q3

/-- WHERE-filter text of the assets list, in declaration order. -/
def assetsWhere (category status search : Option String) : String :=
  (if jsTruthy category then " AND a.category_id = ?" else "")
    ++ (if jsTruthy status then " AND a.status = ?" else "")
    ++ (if jsTruthy search then
          " AND (a.name LIKE ? OR a.asset_code LIKE ? OR a.brand LIKE ? OR a.model LIKE ?)"
        else "")

/-- Bound parameters of the assets WHERE filters, in declaration order. -/
def assetsWhereParams (category status search : Option String) : List String :=
  (if jsTruthy category then [optStr category] else [])
    ++ (if jsTruthy status then [optStr status] else [])
    ++ (if jsTruthy search then
          [likeTerm search, likeTerm search, likeTerm search, likeTerm search]
        else [])

theorem assetsListQuery_eq (c s q : Option String) (limit offset : Nat) :
    assetsListQuery c s q limit offset
      = (assetsListBase ++ assetsWhere c s q ++ " ORDER BY a.created_at DESC LIMIT ? OFFSET ?",
         assetsWhereParams c s q ++ [toString limit, toString offset]) := by
  unfold assetsListQuery assetsWhere assetsWhereParams
  cases jsTruthy c <;> cases jsTruthy s <;> cases jsTruthy q <;>
    simp [String.append_assoc]

theorem assetsCountQuery_eq (c s q : Option String) :
    assetsCountQuery c s q = (assetsCountBase ++ assetsWhere c s q, assetsWhereParams c s q) := by
  unfold assetsCountQuery assetsWhere assetsWhereParams
  cases jsTruthy c <;> cases jsTruthy s <;> cases jsTruthy q <;>
    simp [String.append_assoc]

/-- Base SELECT of the inventory report (`GET /inventory`, src/unnamed/part_001). -/
def invBase : String :=
  "SELECT a.*, c.name as category_name, u.full_name as responsible_name, u.department as responsible_department FROM assets a LEFT JOIN asset_categories c ON a.category_id = c.id LEFT JOIN users u ON a.responsible_user_id = u.id WHERE 1=1"

/-- Inventory report query: five declared filters applied in order; a truthy
`dateTo` value is bound with an appended end-of-day `23:59:59` suffix. -/
def inventoryQuery (category status responsible dateFrom dateTo : Option String) :
    String × List String :=
  let q0 : String × List String := (invBase, [])
  let q1 := if jsTruthy category then
      (q0.1 ++ " AND a.category_id = ?", q0.2 ++ [optStr category]) else q0
  let q2 := if jsTruthy status then
      (q1.1 ++ " AND a.status = ?", q1.2 ++ [optStr status]) else q1
  let q3 := if jsTruthy responsible then
      (q2.1 ++ " AND a.responsible_user_id = ?", q2.2 ++ [optStr responsible]) else q2
  let q4 := if jsTruthy dateFrom then
      (q3.1 ++ " AND a.created_at >= ?", q3.2 ++ [optStr dateFrom]) else q3
  let q5 := if jsTruthy dateTo then
      (q4.1 ++ " AND a.created_at <= ?", q4.2 ++ [optStr dateTo ++ " 23:59:59"]) else q4
  (q5.1 ++ " ORDER BY a.created_at DESC", q5.2)

/-- WHERE-filter text of the inventory report, in declaration order. -/
def invWhere (category status responsible dateFrom dateTo : Option String) : String :=
  (if jsTruthy category then " AND a.category_id = ?" else "")
    ++ (if jsTruthy status then " AND a.status = ?" else "")
    ++ (if jsTruthy responsible then " AND a.responsible_user_id = ?" else "")
    ++ (if jsTruthy dateFrom then " AND a.created_at >= ?" else "")
    ++ (if jsTruthy dateTo then " AND a.created_at <= ?" else "")

/-- Bound parameters of the inventory report filters, in declaration order. -/
def invWhereParams (category status responsible dateFrom dateTo : Option String) :
    List String :=
  (if jsTruthy category then [optStr category] else [])
    ++ (if jsTruthy status then [optStr status] else [])
    ++ (if jsTruthy responsible then [optStr responsible] else [])
    ++ (if jsTruthy dateFrom then [optStr dateFrom] else [])
    ++ (if jsTruthy dateTo then [optStr dateTo ++ " 23:59:59"] else [])

theorem inventoryQuery_eq (c s r df dt : Option String) :
    inventoryQuery c s r df dt
      = (invBase ++ invWhere c s r df dt ++ " ORDER BY a.created_at DESC",
         invWhereParams c s r df dt) := by
  unfold inventoryQuery invWhere invWhereParams
  cases jsTruthy c <;> cases jsTruthy s <;> cases jsTruthy r <;>
    cases jsTruthy df <;> cases jsTruthy dt <;> simp [String.append_assoc]

theorem qmarkCount_append (s t : String) :
    qmarkCount (s ++ t) = qmarkCount s + qmarkCount t := by
  simp [qmarkCount, String.toList, String.data_append, List.count_append]

theorem rfWhere_qmarks (s a n : Option String) :
    qmarkCount (rfWhere s a n) = (rfWhereParams s a n).length := by
  unfold rfWhere rfWhereParams
  cases jsTruthy s <;> cases jsTruthy a <;> cases jsTruthy n <;>
    simp [qmarkCount_append] <;> decide

theorem invWhere_qmarks (c s r df dt : Option String) :
    qmarkCount (invWhere c s r df dt) = (invWhereParams c s r df dt).length := by
  unfold invWhere invWhereParams
  cases jsTruthy c <;> cases jsTruthy s <;> cases jsTruthy r <;>
    cases jsTruthy df <;> cases jsTruthy dt <;>
    simp [qmarkCount_append] <;> decide

theorem rfListBase_qmarks : qmarkCount rfListBase = 0 := by decide

theorem invBase_qmarks : qmarkCount invBase = 0 := by decide

/-- C1: for every combination of optional filter values supplied to a list
endpoint, the COUNT query and the page query carry exactly the same WHERE
predicates with the same bound parameter values in the same order, the page
query additionally carrying only the trailing ORDER BY/LIMIT/OFFSET with its
two extra parameters. Shown for the responsive-forms list (filters status,
asset_id, new_responsible_id) and the assets list (filters category, status,
search). -/
theorem count_and_page_queries_share_predicates
    (status asset_id nri category search : Option String) (limit offset : Nat) :
    (∃ w p, rfListQuery status asset_id nri limit offset
          = (rfListBase ++ w ++ " ORDER BY rf.created_at DESC LIMIT ? OFFSET ?",
             p ++ [toString limit, toString offset])
        ∧ rfCountQuery status asset_id nri = (rfCountBase ++ w, p))
    ∧ (∃ w p, assetsListQuery category status search limit offset
          = (assetsListBase ++ w ++ " ORDER BY a.created_at DESC LIMIT ? OFFSET ?",
             p ++ [toString limit, toString offset])
        ∧ assetsCountQuery category status search = (assetsCountBase ++ w, p)) :=
  ⟨⟨rfWhere status asset_id nri, rfWhereParams status asset_id nri,
      rfListQuery_eq status asset_id nri limit offset,
      rfCountQuery_eq status asset_id nri⟩,
   ⟨assetsWhere category status search, assetsWhereParams category status search,
      assetsListQuery_eq category status search limit offset,
      assetsCountQuery_eq category status search⟩⟩

/-- C7: a declared filter contributes a predicate and a bound parameter if and
only if its request value is present and non-empty (`jsTruthy`), absent or
empty values contributing neither; the applied predicates appear in the
generated SQL in declaration order (`rfWhere`/`invWhere` list the guarded
clauses in that order), and the SQL text and the parameter list stay
positionally aligned: the text carries exactly as many placeholders as there
are bound parameters. Shown for the responsive-forms list and the inventory
report. -/
theorem filters_applied_iff_present_and_nonempty
    (s a n c st r df dt : Option String) (lim off : Nat) :
    rfListQuery s a n lim off
        = (rfListBase ++ rfWhere s a n ++ " ORDER BY rf.created_at DESC LIMIT ? OFFSET ?",
           rfWhereParams s a n ++ [toString lim, toString off])
      ∧ inventoryQuery c st r df dt
        = (invBase ++ invWhere c st r df dt ++ " ORDER BY a.created_at DESC",
           invWhereParams c st r df dt)
      ∧ qmarkCount (rfListQuery s a n lim off).1 = ((rfListQuery s a n lim off).2).length
      ∧ qmarkCount (inventoryQuery c st r df dt).1 = ((inventoryQuery c st r df dt).2).length := by
  refine ⟨rfListQuery_eq s a n lim off, inventoryQuery_eq c st r df dt, ?_, ?_⟩
  · rw [rfListQuery_eq]
    simp only [qmarkCount_append, rfWhere_qmarks, rfListBase_qmarks, List.length_append]
    have h2 : qmarkCount " ORDER BY rf.created_at DESC LIMIT ? OFFSET ?" = 2 := by decide
    simp [h2]
  · rw [inventoryQuery_eq]
    simp only [qmarkCount_append, invWhere_qmarks, invBase_qmarks, List.length_append]
    have h0 : qmarkCount " ORDER BY a.created_at DESC" = 0 := by decide
    simp [h0]

/-! ## Pagination

Every list handler starts with
`const (page = 1, limit = 10, ...) = req.query; const offset = (page - 1) * limit;`
and answers with a pagination object
`(page, limit, total, totalPages = Math.ceil(total / limit))`. -/

/-- The pagination object of every list response. -/
structure Pagination where
  page : Nat
  limit : Nat
  total : Nat
  totalPages : Nat
deriving Repr, DecidableEq

/-- `offset = (page - 1) * limit` with the destructuring defaults `page = 1`,
`limit = 10` for absent query values. -/
def listOffset (pageQ limitQ : Option Nat) : Nat :=
  (pageQ.getD 1 - 1) * limitQ.getD 10

/-- The response's pagination object: `totalPages = Math.ceil(total / limit)`,
the ceiling of exact division. -/
def mkPagination (pageQ limitQ : Option Nat) (total : Nat) : Pagination :=
  { page := pageQ.getD 1
    limit := limitQ.getD 10
    total := total
    totalPages := Nat.ceil ((total : ℚ) / (limitQ.getD 10 : ℚ)) }

theorem nat_ceil_div_eq (t l : Nat) (hl : 1 ≤ l) :
    Nat.ceil ((t : ℚ) / (l : ℚ)) = (t + l - 1) / l := by
  have hl0 : (0 : ℚ) < (l : ℚ) := by exact_mod_cast hl
  rcases Nat.eq_zero_or_pos t with ht | ht
  · subst ht
    have : (l - 1) / l = 0 := Nat.div_eq_of_lt (by omega)
    simp [this]
  · obtain ⟨n, hn⟩ : ∃ n, n = (t + l - 1) / l := ⟨_, rfl⟩
    rw [← hn]
    have hmod : l * n + (t + l - 1) % l = t + l - 1 := by
      rw [hn]; exact Nat.div_add_mod _ _
    have hrlt : (t + l - 1) % l < l := Nat.mod_lt _ (by omega)
    have hn1 : 1 ≤ n := by
      rw [hn]
      exact (Nat.one_le_div_iff (by omega)).2 (by omega)
    have hub : t ≤ n * l := by
      have hmul : n * l = l * n := Nat.mul_comm n l
      omega
    have hlb : (n - 1) * l < t := by
      have hsplit : (n - 1) * l + l = n * l := by
        have hsucc : n - 1 + 1 = n := Nat.succ_pred_eq_of_pos hn1
        calc (n - 1) * l + l = (n - 1 + 1) * l := by ring
          _ = n * l := by rw [hsucc]
      have hmul : n * l = l * n := Nat.mul_comm n l
      omega
    rw [Nat.ceil_eq_iff (by omega)]
    constructor
    · rw [lt_div_iff₀ hl0]
      exact_mod_cast hlb
    · rw [div_le_iff₀ hl0]
      exact_mod_cast hub

/-- C6: for every list request with integer `page ≥ 1` and `limit ≥ 1` (after
the defaults `page = 1`, `limit = 10` for absent values), the page query is
issued with `offset = (page - 1) * limit`, and the response's pagination
object returns `page`, `limit`, `total` and `totalPages` together with
`totalPages = ceil(total / limit)`. -/
theorem pagination_offset_and_total_pages
    (pageQ limitQ : Option Nat) (total page limit : Nat)
    (hp : page = pageQ.getD 1) (hl : limit = limitQ.getD 10)
    (hp1 : 1 ≤ page) (hl1 : 1 ≤ limit) :
    listOffset pageQ limitQ = (page - 1) * limit
      ∧ mkPagination pageQ limitQ total
          = { page := page, limit := limit, total := total,
              totalPages := (total + limit - 1) / limit } := by
  subst hp hl
  exact ⟨rfl, by simp [mkPagination, nat_ceil_div_eq total _ hl1]⟩

/-- Witness for C6: 25 rows with `page=3`, absent `limit` (default 10) give
`offset = 20` and `totalPages = 3`. -/
theorem pagination_offset_and_total_pages_witness :
    listOffset (some 3) none = 20
      ∧ mkPagination (some 3) none 25
          = { page := 3, limit := 10, total := 25, totalPages := 3 } := by
  have h := pagination_offset_and_total_pages (some 3) none 25 3 10 rfl rfl
    (by decide) (by decide)
  exact ⟨h.1.trans (by decide), h.2.trans (by decide)⟩

/-! ## Domain code generators

`generateFormCode`, `generateIncidentCode` and `generateMaintenanceCode` are
textually identical in the source apart from their prefix: two-digit year tail
(`getFullYear().toString().substr(-2)`), zero-padded month and day, and a
random suffix `Math.floor(Math.random() * 1000)` zero-padded to three digits.
The embedding passes the generation date (`year`, `month` = `getMonth() + 1`,
`day`) and the random draw as arguments. -/

/-- JS `String.padStart(width, "0")`: left-pad with zeros up to `width`. -/
def padZero (width : Nat) (s : String) : String :=
  String.mk (List.replicate (width - s.length) '0') ++ s

/-- JS `year.toString().substr(-2)`: the last two characters of the year's
decimal string. -/
def yearTail (year : Nat) : String :=
  (toString year).drop ((toString year).length - 2)

/-- `generateFormCode` (src/routes/responsiveForms.js lines 11-18). -/
def generateFormCode (year month day rand : Nat) : String :=
  "FR-" ++ yearTail year ++ padZero 2 (toString month) ++ padZero 2 (toString day)
    ++ "-" ++ padZero 3 (toString rand)

/-- `generateIncidentCode` (src/unnamed/part_000 lines 198-205). -/
def generateIncidentCode (year month day rand : Nat) : String :=
  "INC-" ++ yearTail year ++ padZero 2 (toString month) ++ padZero 2 (toString day)
    ++ "-" ++ padZero 3 (toString rand)

/-- `generateMaintenanceCode` (maintenances router). -/
def generateMaintenanceCode (year month day rand : Nat) : String :=
  "MNT-" ++ yearTail year ++ padZero 2 (toString month) ++ padZero 2 (toString day)
    ++ "-" ++ padZero 3 (toString rand)

theorem yearTail_length_aux : ∀ k, k < 100 → (yearTail (2000 + k)).length = 2 := by
  decide

theorem yearTail_length (y : Nat) (h1 : 2000 ≤ y) (h2 : y < 2100) :
    (yearTail y).length = 2 := by
  have he : y = 2000 + (y - 2000) := by omega
  rw [he]
  exact yearTail_length_aux (y - 2000) (by omega)

theorem padZero2_length : ∀ m, m < 100 → (padZero 2 (toString m)).length = 2 := by
  decide

theorem padZero3_length : ∀ r, r < 1000 → (padZero 3 (toString r)).length = 3 := by
  decide

theorem ne_of_head_ne (s t : String) (h : s.data.head? ≠ t.data.head?) : s ≠ t :=
  fun he => h (he ▸ rfl)

theorem generateFormCode_head (y m d r : Nat) :
    (generateFormCode y m d r).data.head? = some ('F') := rfl

theorem generateIncidentCode_head (y m d r : Nat) :
    (generateIncidentCode y m d r).data.head? = some ('I') := rfl

theorem generateMaintenanceCode_head (y m d r : Nat) :
    (generateMaintenanceCode y m d r).data.head? = some ('M') := rfl

/-- C8: every generated domain code has the shape `<PREFIX>-<YY><MM><DD>-<NNN>`
with PREFIX `FR`, `INC` or `MNT` identifying the entity kind, a six-character
date component built from the generation date, and a three-character
zero-padded random suffix for every draw in `[0, 999]`; the three generators
share the same date and suffix components and differ only in the prefix, so a
code carries no global-uniqueness information beyond date and draw. -/
theorem generated_codes_shape (year month day rand : Nat)
    (hy1 : 2000 ≤ year) (hy2 : year < 2100)
    (hm : month ≤ 12) (hd : day ≤ 31) (hr : rand < 1000) :
    ∃ yy mm dd nnn,
      yy.length = 2 ∧ mm.length = 2 ∧ dd.length = 2 ∧ nnn.length = 3
        ∧ yy = yearTail year ∧ mm = padZero 2 (toString month)
        ∧ dd = padZero 2 (toString day) ∧ nnn = padZero 3 (toString rand)
        ∧ generateFormCode year month day rand = "FR-" ++ (yy ++ mm ++ dd) ++ "-" ++ nnn
        ∧ generateIncidentCode year month day rand = "INC-" ++ (yy ++ mm ++ dd) ++ "-" ++ nnn
        ∧ generateMaintenanceCode year month day rand = "MNT-" ++ (yy ++ mm ++ dd) ++ "-" ++ nnn
        ∧ generateFormCode year month day rand ≠ generateIncidentCode year month day rand
        ∧ generateFormCode year month day rand ≠ generateMaintenanceCode year month day rand
        ∧ generateIncidentCode year month day rand ≠ generateMaintenanceCode year month day rand := by
  refine ⟨yearTail year, padZero 2 (toString month), padZero 2 (toString day),
    padZero 3 (toString rand),
    yearTail_length year hy1 hy2,
    padZero2_length month (by omega),
    padZero2_length day (by omega),
    padZero3_length rand hr,
    rfl, rfl, rfl, rfl, ?_, ?_, ?_, ?_, ?_, ?_⟩
  · simp [generateFormCode, String.append_assoc]
  · simp [generateIncidentCode, String.append_assoc]
  · simp [generateMaintenanceCode, String.append_assoc]
  · exact ne_of_head_ne _ _ (by
      rw [generateFormCode_head, generateIncidentCode_head]; decide)
  · exact ne_of_head_ne _ _ (by
      rw [generateFormCode_head, generateMaintenanceCode_head]; decide)
  · exact ne_of_head_ne _ _ (by
      rw [generateIncidentCode_head, generateMaintenanceCode_head]; decide)

/-- Witness for C8 at the concrete generation date 2025-10-11 with draw 7:
the form code is `FR-251011-007`. -/
theorem generated_codes_shape_witness :
    generateFormCode 2025 10 11 7 = "FR-251011-007"
      ∧ generateIncidentCode 2025 10 11 7 = "INC-251011-007" := by
  obtain ⟨yy, mm, dd, nnn, -, -, -, -, hyy, hmm, hdd, hnnn, hf, hi, -, -, -, -⟩ :=
    generated_codes_shape 2025 10 11 7 (by decide) (by decide) (by decide)
      (by decide) (by decide)
  subst hyy hmm hdd hnnn
  exact ⟨hf.trans (by decide), hi.trans (by decide)⟩

/-! ## Row-level model of the UPDATE endpoints -/

/-- JSON responses of the mutation endpoints (status code + message). -/
inductive Resp where
  | ok (message : String)
  | notFound (message : String)
  | serverError (message : String)
deriving Repr, DecidableEq

/-- A row of the `maintenances` table (schema in scripts/init-database.js). -/
structure Maintenance where
  id : Nat
  maintenance_code : String
  asset_id : Nat
  type : String
  title : String
  description : Option String
  scheduled_date : Option String
  completed_date : Option String
  status : String
  technician_id : Option Nat
  cost : Option String
  supplier : Option String
  notes : Option String
  created_at : String
  updated_at : String
deriving Repr, DecidableEq

/-- The shared shape of every UPDATE endpoint: run the statement, answer 404
when `this.changes === 0`, success otherwise. -/
def runUpdate {α : Type} (pred : α → Bool) (set : α → α) (db : List α)
    (okMsg nfMsg : String) : List α × Resp :=
  let r := sqlUpdate pred set db
  if r.2 == 0 then (r.1, Resp.notFound nfMsg) else (r.1, Resp.ok okMsg)

theorem sqlUpdate_changes_zero {α : Type} (p : α → Bool) (f : α → α) (db : List α) :
    (sqlUpdate p f db).2 = 0 ↔ db.any p = false := by
  simp [sqlUpdate, List.length_eq_zero, List.filter_eq_nil_iff, List.any_eq_false]

theorem sqlUpdate_no_match {α : Type} (p : α → Bool) (f : α → α) (db : List α)
    (h : db.any p = false) : (sqlUpdate p f db).1 = db := by
  have hall : ∀ a ∈ db, (if p a then f a else a) = a := by
    intro a ha
    rw [List.any_eq_false] at h
    simp [h a ha]
  simp only [sqlUpdate]
  rw [List.map_congr_left hall]
  simp

theorem runUpdate_eq {α : Type} (p : α → Bool) (f : α → α) (db : List α)
    (okMsg nfMsg : String) :
    runUpdate p f db okMsg nfMsg
      = if db.any p then
          (db.map fun a => if p a then f a else a, Resp.ok okMsg)
        else (db, Resp.notFound nfMsg) := by
  by_cases h : db.any p = true
  · rw [if_pos h]
    have hch : ((sqlUpdate p f db).2 == 0) = false := by
      rw [beq_eq_false_iff_ne, Ne, sqlUpdate_changes_zero]
      simp [h]
    simp only [sqlUpdate] at hch
    simp only [runUpdate, sqlUpdate, hch, Bool.false_eq_true, if_false]
  · have hfalse : db.any p = false := by simpa using h
    rw [if_neg h]
    have hch : ((sqlUpdate p f db).2 == 0) = true := by
      simp only [beq_iff_eq, sqlUpdate_changes_zero]
      exact hfalse
    simp only [runUpdate, hch, if_true]
    rw [sqlUpdate_no_match p f db hfalse]

/-- `PUT /:id/start` (maintenances router): set `in_progress` where
`id = ? AND status = 'scheduled'`; zero affected rows answer 404. -/
def startMaintenance (db : List Maintenance) (mid : Nat) (now : String) :
    List Maintenance × Resp :=
  runUpdate (fun m => m.id == mid && m.status == "scheduled")
    (fun m => { m with status := "in_progress", updated_at := now }) db
    "Mantenimiento iniciado exitosamente"
    "Mantenimiento no encontrado o ya iniciado"

/-- SET clause of `PUT /:id/complete`: always stamps `completed` and
`completed_date`, and copies notes/cost only when truthy. -/
def completeSet (notes cost : Option String) (now : String) (m : Maintenance) :
    Maintenance :=
  let m1 := { m with status := "completed", completed_date := some now, updated_at := now }
  let m2 := if jsTruthy notes then { m1 with notes := notes } else m1
  if jsTruthy cost then { m2 with cost := cost } else m2

/-- `PUT /:id/complete` (maintenances router): WHERE
`id = ? AND status IN ('scheduled', 'in_progress')`. -/
def completeMaintenance (db : List Maintenance) (mid : Nat)
    (notes cost : Option String) (now : String) : List Maintenance × Resp :=
  runUpdate (fun m => m.id == mid && (m.status == "scheduled" || m.status == "in_progress"))
    (completeSet notes cost now) db
    "Mantenimiento completado exitosamente"
    "Mantenimiento no encontrado o ya completado"

/-- C3: `start` changes a row iff the maintenance's current status is
`scheduled` (setting `in_progress`), `complete` changes a row iff the current
status is `scheduled` or `in_progress` (setting `completed` and stamping
`completed_date := now`); when no row matches — in particular for an
already-completed maintenance — the table is returned unchanged and the
response is a 404 not-found, never a silent re-application. -/
theorem maintenance_start_complete_transitions
    (db : List Maintenance) (mid : Nat) (notes cost : Option String) (now : String) :
    (startMaintenance db mid now
        = if db.any (fun m => m.id == mid && m.status == "scheduled") then
            (db.map fun m => if m.id == mid && m.status == "scheduled" then
                { m with status := "in_progress", updated_at := now } else m,
             Resp.ok "Mantenimiento iniciado exitosamente")
          else (db, Resp.notFound "Mantenimiento no encontrado o ya iniciado"))
    ∧ (completeMaintenance db mid notes cost now
        = if db.any (fun m => m.id == mid && (m.status == "scheduled" || m.status == "in_progress")) then
            (db.map fun m =>
               if m.id == mid && (m.status == "scheduled" || m.status == "in_progress") then
                 completeSet notes cost now m else m,
             Resp.ok "Mantenimiento completado exitosamente")
          else (db, Resp.notFound "Mantenimiento no encontrado o ya completado"))
    ∧ (db.any (fun m => m.id == mid && m.status == "scheduled") = true
        ↔ ∃ m ∈ db, m.id = mid ∧ m.status = "scheduled")
    ∧ (db.any (fun m => m.id == mid && (m.status == "scheduled" || m.status == "in_progress")) = true
        ↔ ∃ m ∈ db, m.id = mid ∧ (m.status = "scheduled" ∨ m.status = "in_progress"))
    ∧ (∀ m : Maintenance, m.status = "completed" →
        (m.id == mid && (m.status == "scheduled" || m.status == "in_progress")) = false) := by
  refine ⟨runUpdate_eq _ _ db _ _, runUpdate_eq _ _ db _ _, ?_, ?_, ?_⟩
  · simp [List.any_eq_true]
  · simp [List.any_eq_true]
  · intro m hm
    simp [hm]

/-- A row of the `assets` table. -/
structure Asset where
  id : Nat
  asset_code : String
  name : String
  description : Option String
  category_id : Option Nat
  brand : Option String
  model : Option String
  serial_number : Option String
  purchase_date : Option String
  purchase_price : Option String
  supplier : Option String
  location : Option String
  status : String
  responsible_user_id : Option Nat
  warranty_expiry : Option String
  notes : Option String
  created_at : String
  updated_at : String
deriving Repr, DecidableEq

/-- A row of the `responsive_forms` table. -/
structure ResponsiveForm where
  id : Nat
  form_code : String
  asset_id : Nat
  previous_responsible_id : Option Nat
  new_responsible_id : Nat
  transfer_date : String
  reason : Option String
  conditions : Option String
  observations : Option String
  approved_by : Option Nat
  status : String
  created_at : String
  updated_at : String
deriving Repr, DecidableEq

/-- Request body of `PUT /:id` on the assets router: every column of the SET
list is overwritten from the body, including `responsible_user_id`. -/
structure AssetUpdateBody where
  name : String
  description : Option String
  category_id : Option Nat
  brand : Option String
  model : Option String
  serial_number : Option String
  purchase_date : Option String
  purchase_price : Option String
  supplier : Option String
  location : Option String
  status : String
  responsible_user_id : Option Nat
  warranty_expiry : Option String
  notes : Option String
deriving Repr, DecidableEq

/-- `PUT /:id` (assets router, src/unnamed/part_000 lines 690-730). -/
def updateAsset (assets : List Asset) (aid : Nat) (b : AssetUpdateBody)
    (now : String) : List Asset × Resp :=
  runUpdate (fun a => a.id == aid)
    (fun a => { a with
        name := b.name, description := b.description, category_id := b.category_id,
        brand := b.brand, model := b.model, serial_number := b.serial_number,
        purchase_date := b.purchase_date, purchase_price := b.purchase_price,
        supplier := b.supplier, location := b.location, status := b.status,
        responsible_user_id := b.responsible_user_id,
        warranty_expiry := b.warranty_expiry, notes := b.notes, updated_at := now })
    assets "Activo actualizado exitosamente" "Activo no encontrado"

/-- `PUT /:id/approve` (responsive-forms router, lines 201-266): update the
pending form to `approved`/`rejected`; on zero affected rows answer 404; only
on the approved branch re-read the form and overwrite the asset's
`responsible_user_id` with the form's `new_responsible_id`. -/
def approveForm (forms : List ResponsiveForm) (assets : List Asset) (fid : Nat)
    (approved : Bool) (approverId : Nat) (comments : Option String) (now : String) :
    (List ResponsiveForm × List Asset) × Resp :=
  let status := if approved then "approved" else "rejected"
  let r := sqlUpdate (fun f => f.id == fid && f.status == "pending")
      (fun f => { f with
          status := status, approved_by := some approverId,
          observations := comments, updated_at := now }) forms
  if r.2 == 0 then
    ((r.1, assets), Resp.notFound "Formato no encontrado o ya procesado")
  else if approved then
    match r.1.find? (fun f => f.id == fid) with
    | none => ((r.1, assets), Resp.serverError "Error al obtener datos del formato")
    | some f =>
        let ra := sqlUpdate (fun a => a.id == f.asset_id)
            (fun a => { a with
                responsible_user_id := some f.new_responsible_id,
                updated_at := now }) assets
        ((r.1, ra.1),
         Resp.ok ("Formato responsivo "
           ++ (if status == "approved" then "aprobado" else "rechazado")
           ++ " exitosamente"))
  else
    ((r.1, assets),
     Resp.ok ("Formato responsivo "
       ++ (if status == "approved" then "aprobado" else "rechazado")
       ++ " exitosamente"))

/-- A concrete asset held by user 5. -/
def exAsset : Asset :=
  { id := 1, asset_code := "AC-001", name := "Laptop", description := none,
    category_id := some 1, brand := none, model := none, serial_number := none,
    purchase_date := none, purchase_price := none, supplier := none,
    location := none, status := "active", responsible_user_id := some 5,
    warranty_expiry := none, notes := none,
    created_at := "2024-01-01", updated_at := "2024-01-01" }

/-- A concrete asset-update body that reassigns the asset to user 7. -/
def exBody : AssetUpdateBody :=
  { name := "Laptop", description := none, category_id := some 1, brand := none,
    model := none, serial_number := none, purchase_date := none,
    purchase_price := none, supplier := none, location := none,
    status := "active", responsible_user_id := some 7, warranty_expiry := none,
    notes := none }

/-- Counterexample to C2: the generic asset-update endpoint `PUT /:id` of the
assets router also mutates `responsible_user_id` — here from user 5 to user 7
with no responsive form involved — so approving a form is not the only
operation path that mutates an asset's responsible user. -/
theorem asset_update_mutates_responsible_counterexample :
    exAsset.responsible_user_id = some 5
      ∧ ((updateAsset [exAsset] 1 exBody "2024-02-02").1.map
            fun a => a.responsible_user_id) = [some 7]
      ∧ (updateAsset [exAsset] 1 exBody "2024-02-02").2
          = Resp.ok "Activo actualizado exitosamente" := by
  refine ⟨rfl, ?_, ?_⟩ <;> decide

/-- C2 (amended): rejecting a pending responsive form (approve endpoint with
`approved = false`) sets the form's status to `rejected` and leaves every
asset row unchanged, and within the responsive-forms router the approved
branch is the only path that writes an asset's responsible user; however the
assets router's own `PUT /:id` also overwrites `responsible_user_id` from its
request body, so form approval is not the only such path in the whole
program. -/
theorem reject_leaves_assets_unchanged
    (forms : List ResponsiveForm) (assets : List Asset) (fid approverId : Nat)
    (comments : Option String) (now : String) :
    (approveForm forms assets fid false approverId comments now).1.2 = assets
      ∧ (approveForm forms assets fid false approverId comments now).1.1
        = forms.map (fun f => if f.id == fid && f.status == "pending" then
            { f with
                status := "rejected", approved_by := some approverId,
                observations := comments, updated_at := now } else f)
      ∧ (approveForm forms assets fid false approverId comments now).2
        = (if forms.any (fun f => f.id == fid && f.status == "pending") then
             Resp.ok "Formato responsivo rechazado exitosamente"
           else Resp.notFound "Formato no encontrado o ya procesado") := by
  have hz := sqlUpdate_changes_zero
    (fun f : ResponsiveForm => f.id == fid && f.status == "pending")
    (fun f => { f with
        status := "rejected", approved_by := some approverId,
        observations := comments, updated_at := now }) forms
  by_cases h : forms.any (fun f => f.id == fid && f.status == "pending") = true
  · have hch : ((forms.filter (fun f => f.id == fid && f.status == "pending")).length == 0) = false := by
      rw [beq_eq_false_iff_ne, Ne]
      simp only [sqlUpdate] at hz
      rw [hz, h]
      simp
    refine ⟨?_, ?_, ?_⟩ <;>
      simp [approveForm, sqlUpdate, hch, h]
  · have hfalse : forms.any (fun f => f.id == fid && f.status == "pending") = false := by
      simpa using h
    have hch : ((forms.filter (fun f => f.id == fid && f.status == "pending")).length == 0) = true := by
      simp only [beq_iff_eq]
      simp only [sqlUpdate] at hz
      rw [hz]
      exact hfalse
    have hmap := sqlUpdate_no_match
      (fun f : ResponsiveForm => f.id == fid && f.status == "pending")
      (fun f => { f with
          status := "rejected", approved_by := some approverId,
          observations := comments, updated_at := now }) forms hfalse
    simp only [sqlUpdate] at hmap
    refine ⟨?_, ?_, ?_⟩ <;>
      simp [approveForm, sqlUpdate, hch, hfalse, hmap]

/-- A row of the `incidents` table. -/
structure Incident where
  id : Nat
  incident_code : String
  title : String
  description : String
  asset_id : Option Nat
  priority : String
  status : String
  reported_by : Option Nat
  assigned_to : Option Nat
  reported_date : String
  resolved_date : Option String
  solution : Option String
  created_at : String
  updated_at : String
deriving Repr, DecidableEq

/-- SET clause of `PUT /:id/resolve` (incidents router): unconditionally
overwrites solution, status and `resolved_date = CURRENT_TIMESTAMP`. -/
def resolveSet (sol now : String) (i : Incident) : Incident :=
  { i with
      solution := some sol, status := "resolved",
      resolved_date := some now, updated_at := now }

/-- `PUT /:id/resolve` (src/unnamed/part_000 lines 449-478): WHERE `id = ?`
only — there is no guard on the current status or on `resolved_date`. -/
def resolveIncident (db : List Incident) (iid : Nat) (sol now : String) :
    List Incident × Resp :=
  runUpdate (fun i => i.id == iid) (resolveSet sol now) db
    "Incidencia resuelta exitosamente" "Incidencia no encontrada"

/-- SET clause of `PUT /:id` (incidents router): overwrites the listed columns
and appends `resolved_date = CURRENT_TIMESTAMP` exactly when the requested
status is `resolved` or `closed`. -/
def incidentUpdateSet (title description priority status : String)
    (assigned_to : Option Nat) (solution : Option String) (now : String)
    (i : Incident) : Incident :=
  let i1 := { i with
      title := title, description := description, priority := priority,
      status := status, assigned_to := assigned_to, solution := solution,
      updated_at := now }
  if status == "resolved" || status == "closed" then
    { i1 with resolved_date := some now }
  else i1

/-- `PUT /:id` (incidents router, src/unnamed/part_000 lines 374-415). -/
def updateIncident (db : List Incident) (iid : Nat)
    (title description priority status : String) (assigned_to : Option Nat)
    (solution : Option String) (now : String) : List Incident × Resp :=
  runUpdate (fun i => i.id == iid)
    (incidentUpdateSet title description priority status assigned_to solution now)
    db "Incidencia actualizada exitosamente" "Incidencia no encontrada"

/-- A concrete incident that is already resolved with a non-null
`resolved_date`. -/
def exIncident : Incident :=
  { id := 1, incident_code := "INC-240101-001", title := "Printer down",
    description := "paper jam", asset_id := none, priority := "high",
    status := "resolved", reported_by := some 1, assigned_to := none,
    reported_date := "2024-01-01 09:00:00",
    resolved_date := some "2024-01-02 10:00:00", solution := some "fixed",
    created_at := "2024-01-01", updated_at := "2024-01-02" }

/-- Counterexample to C4: invoking resolve again on an incident whose
`resolved_date` is already non-null overwrites the existing timestamp with the
new current time — the resolution stamp is reset, not stamped exactly once. -/
theorem resolve_restamps_counterexample :
    exIncident.resolved_date = some "2024-01-02 10:00:00"
      ∧ ((resolveIncident [exIncident] 1 "fixed again" "2024-06-01 12:00:00").1.map
            fun i => i.resolved_date) = [some "2024-06-01 12:00:00"]
      ∧ (resolveIncident [exIncident] 1 "fixed again" "2024-06-01 12:00:00").2
          = Resp.ok "Incidencia resuelta exitosamente" := by
  refine ⟨rfl, ?_, ?_⟩ <;> decide

/-- C4 (amended): the resolve endpoint matches on the id alone and its SET
clause always writes `resolved_date := now`, and the update endpoint does the
same whenever the requested status is `resolved` or `closed`; so re-resolving
an incident with a non-null `resolved_date` overwrites the stored timestamp
with the current one on every call — the stamp is not written exactly once. -/
theorem resolve_and_update_always_restamp
    (db : List Incident) (iid : Nat)
    (sol now title description priority status : String)
    (assigned_to : Option Nat) (solution : Option String) :
    (resolveIncident db iid sol now
        = if db.any (fun i => i.id == iid) then
            (db.map fun i => if i.id == iid then resolveSet sol now i else i,
             Resp.ok "Incidencia resuelta exitosamente")
          else (db, Resp.notFound "Incidencia no encontrada"))
      ∧ (updateIncident db iid title description priority status assigned_to solution now
        = if db.any (fun i => i.id == iid) then
            (db.map fun i => if i.id == iid then
                incidentUpdateSet title description priority status assigned_to solution now i
              else i,
             Resp.ok "Incidencia actualizada exitosamente")
          else (db, Resp.notFound "Incidencia no encontrada"))
      ∧ (∀ i : Incident, (resolveSet sol now i).resolved_date = some now)
      ∧ (∀ i : Incident,
          (incidentUpdateSet title description priority "resolved" assigned_to solution now i).resolved_date
            = some now)
      ∧ (∀ i : Incident,
          (incidentUpdateSet title description priority "closed" assigned_to solution now i).resolved_date
            = some now) := by
  refine ⟨runUpdate_eq _ _ db _ _, runUpdate_eq _ _ db _ _,
    fun i => rfl, fun i => ?_, fun i => ?_⟩ <;>
    simp [incidentUpdateSet]

/-! ## Report aggregator (stats/dashboard batches)

Every stats endpoint builds a fixed object of named SQL texts, wraps each
`db.all` call in a promise that stores its rows under the query's name, and
joins them with `Promise.all(...).then(json).catch(500 with a bare message)`.
The store's evaluation of one SQL text is abstracted as
`exec : String → Except String α`. -/

/-- Response of a stats/dashboard endpoint: either every query's rows keyed by
the query's name, or a bare server-error message with no partial results. -/
inductive BatchResp (α : Type) where
  | ok (stats : List (String × α))
  | error (message : String)
deriving Repr, DecidableEq

/-- `Promise.all` over named query results: all values when every query
succeeded, `none` as soon as any query failed. -/
def collectResults {α : Type} :
    List (String × Except String α) → Option (List (String × α))
  | [] => some []
  | (k, Except.ok v) :: rest => (collectResults rest).map (fun l => (k, v) :: l)
  | (_, Except.error _) :: _ => none

/-- The shared stats-endpoint shape:
`Promise.all(promises).then(() => res.json(stats)).catch(() => 500 message)`. -/
def runBatch {α : Type} (errMsg : String)
    (queries : List (String × Except String α)) : BatchResp α :=
  match collectResults queries with
  | some stats => BatchResp.ok stats
  | none => BatchResp.error errMsg

/-- The named aggregate queries of `GET /dashboard` (src/unnamed/part_001
lines 11-83), whitespace collapsed. -/
def dashboardQueries : List (String × String) :=
  [("totalAssets", "SELECT COUNT(*) as count FROM assets WHERE status != \x27inactive\x27"),
   ("assetsByCategory", "SELECT c.name, COUNT(a.id) as count FROM asset_categories c LEFT JOIN assets a ON c.id = a.category_id AND a.status != \x27inactive\x27 GROUP BY c.id, c.name"),
   ("assetsWithoutResponsible", "SELECT COUNT(*) as count FROM assets WHERE responsible_user_id IS NULL AND status = \x27active\x27"),
   ("expiredWarranties", "SELECT COUNT(*) as count FROM assets WHERE warranty_expiry < DATE(\x27now\x27) AND status = \x27active\x27"),
   ("totalIncidents", "SELECT COUNT(*) as count FROM incidents"),
   ("openIncidents", "SELECT COUNT(*) as count FROM incidents WHERE status IN (\x27open\x27, \x27assigned\x27, \x27in_progress\x27)"),
   ("incidentsByPriority", "SELECT priority, COUNT(*) as count FROM incidents GROUP BY priority"),
   ("totalMaintenances", "SELECT COUNT(*) as count FROM maintenances"),
   ("upcomingMaintenances", "SELECT COUNT(*) as count FROM maintenances WHERE scheduled_date BETWEEN DATE(\x27now\x27) AND DATE(\x27now\x27, \x27+30 days\x27) AND status = \x27scheduled\x27"),
   ("overdueMaintenances", "SELECT COUNT(*) as count FROM maintenances WHERE scheduled_date < DATE(\x27now\x27) AND status = \x27scheduled\x27"),
   ("pendingForms", "SELECT COUNT(*) as count FROM responsive_forms WHERE status = \x27pending\x27"),
   ("pendingRequisitions", "SELECT COUNT(*) as count FROM requisitions WHERE status = \x27pending\x27"),
   ("approvedRequisitionsValue", "SELECT SUM(estimated_cost) as total FROM requisitions WHERE status = \x27approved\x27 AND created_at >= DATE(\x27now\x27, \x27-30 days\x27)")]

/-- `GET /dashboard`: the batch over `dashboardQueries`. -/
def getDashboard {α : Type} (exec : String → Except String α) : BatchResp α :=
  runBatch "Error al obtener estadísticas del dashboard"
    (dashboardQueries.map fun q => (q.1, exec q.2))

/-- The named aggregate queries of `GET /stats/overview` on the
responsive-forms router (lines 373-408). -/
def rfStatsQueries : List (String × String) :=
  [("total", "SELECT COUNT(*) as count FROM responsive_forms"),
   ("byStatus", "SELECT status, COUNT(*) as count FROM responsive_forms GROUP BY status"),
   ("pending", "SELECT COUNT(*) as count FROM responsive_forms WHERE status = \x27pending\x27"),
   ("approved", "SELECT COUNT(*) as count FROM responsive_forms WHERE status = \x27approved\x27"),
   ("rejected", "SELECT COUNT(*) as count FROM responsive_forms WHERE status = \x27rejected\x27"),
   ("thisMonth", "SELECT COUNT(*) as count FROM responsive_forms WHERE strftime(\x27%Y-%m\x27, created_at) = strftime(\x27%Y-%m\x27, \x27now\x27)")]

/-- `GET /stats/overview` (responsive forms): the batch over `rfStatsQueries`. -/
def getRfStats {α : Type} (exec : String → Except String α) : BatchResp α :=
  runBatch "Error al obtener estadísticas"
    (rfStatsQueries.map fun q => (q.1, exec q.2))

theorem collectResults_none_iff {α : Type} (qs : List (String × Except String α)) :
    collectResults qs = none ↔ ∃ q ∈ qs, ∃ e, q.2 = Except.error e := by
  induction qs with
  | nil => simp [collectResults]
  | cons q rest ih =>
    obtain ⟨k, v⟩ := q
    cases v with
    | ok v => simp [collectResults, ih]
    | error e => simp [collectResults]

theorem collectResults_some {α : Type} (qs : List (String × Except String α))
    (l : List (String × α)) (h : collectResults qs = some l) :
    l.map Prod.fst = qs.map Prod.fst ∧ ∀ kv ∈ l, (kv.1, Except.ok kv.2) ∈ qs := by
  induction qs generalizing l with
  | nil =>
    simp only [collectResults, Option.some.injEq] at h
    subst h
    simp
  | cons q rest ih =>
    obtain ⟨k, v⟩ := q
    cases v with
    | error e => simp [collectResults] at h
    | ok v =>
      simp only [collectResults, Option.map_eq_some'] at h
      obtain ⟨l', hl', rfl⟩ := h
      obtain ⟨h1, h2⟩ := ih l' hl'
      refine ⟨by simp [h1], ?_⟩
      intro kv hkv
      rcases List.mem_cons.1 hkv with hkv | hkv
      · subst hkv
        exact List.mem_cons_self _ _
      · exact List.mem_cons_of_mem _ (h2 kv hkv)

theorem collectResults_all_ok {α : Type} (qs : List (String × Except String α))
    (h : ∀ q ∈ qs, ∃ v, q.2 = Except.ok v) : ∃ l, collectResults qs = some l := by
  induction qs with
  | nil => exact ⟨[], rfl⟩
  | cons q rest ih =>
    obtain ⟨k, v⟩ := q
    obtain ⟨w, hw⟩ := h (k, v) (List.mem_cons_self _ _)
    obtain ⟨l, hl⟩ := ih fun q hq => h q (List.mem_cons_of_mem _ hq)
    cases hw
    exact ⟨(k, w) :: l, by simp [collectResults, hl]⟩

/-- C5: a stats/dashboard batch is all-or-nothing: the endpoint answers with
the bare server-error message exactly when at least one query of the batch
fails (so no partial results can appear in the body, the error response
carrying a message only), and when every query succeeds it answers `ok` with
each query's result keyed by its name, in the declared order. Instantiated
for `GET /dashboard` and the responsive-forms `GET /stats/overview`. -/
theorem batch_all_or_nothing {α : Type} (msg : String)
    (qs : List (String × Except String α)) (exec : String → Except String α) :
    (runBatch msg qs = BatchResp.error msg ↔ ∃ q ∈ qs, ∃ e, q.2 = Except.error e)
      ∧ ((∀ q ∈ qs, ∃ v, q.2 = Except.ok v) →
          ∃ l, runBatch msg qs = BatchResp.ok l
            ∧ l.map Prod.fst = qs.map Prod.fst
            ∧ ∀ kv ∈ l, (kv.1, Except.ok kv.2) ∈ qs)
      ∧ ((∃ kq ∈ dashboardQueries, ∃ e, exec kq.2 = Except.error e) →
          getDashboard exec
            = BatchResp.error "Error al obtener estadísticas del dashboard")
      ∧ ((∃ kq ∈ rfStatsQueries, ∃ e, exec kq.2 = Except.error e) →
          getRfStats exec = BatchResp.error "Error al obtener estadísticas") := by
  have hbatch : ∀ (m : String) (qs' : List (String × Except String α)),
      (∃ q ∈ qs', ∃ e, q.2 = Except.error e) → runBatch m qs' = BatchResp.error m := by
    intro m qs' hex
    unfold runBatch
    rw [(collectResults_none_iff qs').2 hex]
  refine ⟨⟨?_, hbatch msg qs⟩, ?_, ?_, ?_⟩
  · intro h
    by_contra hne
    rw [← collectResults_none_iff] at hne
    unfold runBatch at h
    cases hcr : collectResults qs with
    | none => exact hne hcr
    | some l => rw [hcr] at h; cases h
  · intro hall
    obtain ⟨l, hl⟩ := collectResults_all_ok qs hall
    obtain ⟨h1, h2⟩ := collectResults_some qs l hl
    exact ⟨l, by unfold runBatch; rw [hl], h1, h2⟩
  · intro ⟨kq, hmem, e, he⟩
    exact hbatch _ _ ⟨(kq.1, exec kq.2), List.mem_map_of_mem _ hmem, e, he⟩
  · intro ⟨kq, hmem, e, he⟩
    exact hbatch _ _ ⟨(kq.1, exec kq.2), List.mem_map_of_mem _ hmem, e, he⟩

/-- Witness for C5: a two-query batch with one failure answers the bare error
message, and a dashboard whose store always fails answers the dashboard error
message. -/
theorem batch_all_or_nothing_witness :
    runBatch "m" [("a", Except.ok (1 : Nat)), ("b", Except.error "boom")]
        = BatchResp.error "m"
      ∧ getDashboard (fun _ => (Except.error "down" : Except String Nat))
        = BatchResp.error "Error al obtener estadísticas del dashboard" := by
  have h := batch_all_or_nothing "m"
    [("a", Except.ok (1 : Nat)), ("b", Except.error "boom")]
    (fun _ => (Except.error "down" : Except String Nat))
  refine ⟨h.1.mpr ⟨("b", Except.error "boom"), by simp, "boom", rfl⟩, ?_⟩
  exact h.2.2.1 ⟨("totalIncidents", "SELECT COUNT(*) as count FROM incidents"),
    by simp [dashboardQueries], "down", rfl⟩

/-- A concrete scheduled maintenance. -/
def exMaintenance : Maintenance :=
  { id := 1, maintenance_code := "MNT-240101-001", asset_id := 2,
    type := "preventive", title := "Check AC", description := none,
    scheduled_date := some "2024-01-05", completed_date := none,
    status := "scheduled", technician_id := none, cost := none,
    supplier := none, notes := none,
    created_at := "2024-01-01", updated_at := "2024-01-01" }

/-- A concrete maintenance that is already completed. -/
def exCompleted : Maintenance :=
  { exMaintenance with
      id := 2, status := "completed", completed_date := some "2024-01-06" }

/-- Witness for C3: starting the scheduled maintenance succeeds, while
completing the already-completed one answers 404 and leaves the table
unchanged. -/
theorem maintenance_transitions_witness :
    (startMaintenance [exMaintenance, exCompleted] 1 "2024-01-05").2
        = Resp.ok "Mantenimiento iniciado exitosamente"
      ∧ completeMaintenance [exMaintenance, exCompleted] 2 none none "2024-02-01"
        = ([exMaintenance, exCompleted],
           Resp.notFound "Mantenimiento no encontrado o ya completado") := by
  refine ⟨?_, ?_⟩
  · rw [(maintenance_start_complete_transitions [exMaintenance, exCompleted]
      1 none none "2024-01-05").1]
    decide
  · rw [(maintenance_start_complete_transitions [exMaintenance, exCompleted]
      2 none none "2024-02-01").2.1]
    decide

/-! ## Auth (login and profile) -/

/-- A row of the `users` table. -/
structure User where
  id : Nat
  username : String
  email : String
  password : String
  full_name : String
  role : String
  department : String
  created_at : String
  updated_at : String
  active : Nat
deriving Repr, DecidableEq

/-- The shaped user object of a successful login: exactly the six fields the
handler copies out, with no password field. -/
structure PublicUser where
  id : Nat
  username : String
  email : String
  full_name : String
  role : String
  department : String
deriving Repr, DecidableEq

/-- Login responses: success carries the token and shaped user, every failure
is the same bare 401 message. -/
inductive LoginResp where
  | success (message : String) (token : String) (user : PublicUser)
  | invalid (message : String)
deriving Repr, DecidableEq

/-- Modelled from the spec: `generateToken` lives in `../middleware/auth`,
which is not among the sources; the spec fixes the token issuer's contract as
signing an identity token carrying the user's id and role, so it is abstracted
as an arbitrary signer applied to exactly those two fields. -/
def generateToken (tokenSign : Nat → String → String) (u : User) : String :=
  tokenSign u.id u.role

/-- Row selection of the login query
`SELECT * FROM users WHERE (username = ? OR email = ?) AND active = 1`, both
placeholders bound to the submitted identifier. -/
def loginSelects (username : String) (u : User) : Bool :=
  (u.username == username || u.email == username) && u.active == 1

/-- `POST /login` (src/unnamed/part_000 lines 12-60): `db.get` the first
active matching user, compare the password against the stored hash (`verify`
abstracts `bcrypt.compare`), stamp `updated_at` and issue the token on
success; an unknown identifier, an inactive user and a wrong password all
answer the same `Credenciales inválidas` 401. -/
def login (verify : String → String → Bool) (tokenSign : Nat → String → String)
    (db : List User) (username password now : String) : LoginResp × List User :=
  match db.find? (loginSelects username) with
  | none => (LoginResp.invalid "Credenciales inválidas", db)
  | some user =>
    if verify password user.password then
      (LoginResp.success "Login exitoso" (generateToken tokenSign user)
          { id := user.id, username := user.username, email := user.email,
            full_name := user.full_name, role := user.role,
            department := user.department },
       (sqlUpdate (fun u => u.id == user.id)
          (fun u => { u with updated_at := now }) db).1)
    else (LoginResp.invalid "Credenciales inválidas", db)

/-- The row shape selected by `GET /profile`:
`SELECT id, username, email, full_name, role, department, created_at` — no
password column. -/
structure ProfileUser where
  id : Nat
  username : String
  email : String
  full_name : String
  role : String
  department : String
  created_at : String
deriving Repr, DecidableEq

/-- Profile responses. -/
inductive ProfileResp where
  | ok (user : ProfileUser)
  | notFound (message : String)
deriving Repr, DecidableEq

/-- `GET /profile` (src/unnamed/part_000 lines 127-143). -/
def getProfile (db : List User) (uid : Nat) : ProfileResp :=
  match db.find? (fun u => u.id == uid) with
  | none => ProfileResp.notFound "Usuario no encontrado"
  | some u =>
      ProfileResp.ok
        { id := u.id, username := u.username, email := u.email,
          full_name := u.full_name, role := u.role,
          department := u.department, created_at := u.created_at }

theorem login_none (verify : String → String → Bool)
    (tokenSign : Nat → String → String) (db : List User) (u p now : String)
    (hf : db.find? (loginSelects u) = none) :
    login verify tokenSign db u p now
      = (LoginResp.invalid "Credenciales inválidas", db) := by
  unfold login
  rw [hf]

theorem login_found (verify : String → String → Bool)
    (tokenSign : Nat → String → String) (db : List User) (u p now : String)
    (user : User) (hf : db.find? (loginSelects u) = some user) :
    login verify tokenSign db u p now
      = if verify p user.password then
          (LoginResp.success "Login exitoso" (generateToken tokenSign user)
              { id := user.id, username := user.username, email := user.email,
                full_name := user.full_name, role := user.role,
                department := user.department },
           (sqlUpdate (fun x => x.id == user.id)
              (fun x => { x with updated_at := now }) db).1)
        else (LoginResp.invalid "Credenciales inválidas", db) := by
  unfold login
  rw [hf]

/-- C9: the login succeeds exactly when the first stored user selected by
`(username = ? OR email = ?) AND active = 1` exists and the password matches
the stored hash; such a selected user really matches the identifier and has
`active = 1`; and an unknown identifier (which includes every inactive user)
and a wrong password produce the same bare invalid-credentials response, which
carries no token. -/
theorem login_succeeds_iff_active_match
    (verify : String → String → Bool) (tokenSign : Nat → String → String)
    (db : List User) (u p now : String) :
    ((∃ m t pu, (login verify tokenSign db u p now).1 = LoginResp.success m t pu)
        ↔ ∃ user, db.find? (loginSelects u) = some user ∧ verify p user.password = true)
      ∧ (db.find? (loginSelects u) = none →
          (login verify tokenSign db u p now).1 = LoginResp.invalid "Credenciales inválidas")
      ∧ (∀ user, db.find? (loginSelects u) = some user → verify p user.password = false →
          (login verify tokenSign db u p now).1 = LoginResp.invalid "Credenciales inválidas")
      ∧ (∀ user, db.find? (loginSelects u) = some user →
          (user.username = u ∨ user.email = u) ∧ user.active = 1) := by
  refine ⟨⟨?_, ?_⟩, ?_, ?_, ?_⟩
  · intro ⟨m, t, pu, hs⟩
    cases hf : db.find? (loginSelects u) with
    | none =>
      rw [login_none verify tokenSign db u p now hf] at hs
      cases hs
    | some user =>
      rw [login_found verify tokenSign db u p now user hf] at hs
      by_cases hv : verify p user.password = true
      · exact ⟨user, rfl, hv⟩
      · rw [if_neg hv] at hs; cases hs
  · intro ⟨user, hf, hv⟩
    refine ⟨"Login exitoso", generateToken tokenSign user,
      { id := user.id, username := user.username, email := user.email,
        full_name := user.full_name, role := user.role,
        department := user.department }, ?_⟩
    rw [login_found verify tokenSign db u p now user hf, if_pos hv]
  · intro hf
    rw [login_none verify tokenSign db u p now hf]
  · intro user hf hv
    rw [login_found verify tokenSign db u p now user hf, if_neg (by simp [hv])]
  · intro user hf
    have hsel := List.find?_some hf
    unfold loginSelects at hsel
    simp only [Bool.and_eq_true, Bool.or_eq_true, beq_iff_eq] at hsel
    exact hsel

/-- A concrete active user. -/
def exUser : User :=
  { id := 1, username := "alice", email := "alice@siaf.mx", password := "h1",
    full_name := "Alice A", role := "admin", department := "IT",
    created_at := "2024-01-01", updated_at := "2024-01-01", active := 1 }

/-- Witness for C9: with equality as the hash check, a wrong password on the
selected user yields the bare invalid-credentials response, and the selected
user indeed matches the identifier and is active. -/
theorem login_succeeds_iff_active_match_witness :
    (login (fun pw hash => pw == hash) (fun i r => toString i ++ r)
        [exUser] "alice" "bad" "t").1 = LoginResp.invalid "Credenciales inválidas"
      ∧ ((exUser.username = "alice" ∨ exUser.email = "alice") ∧ exUser.active = 1) := by
  have h := login_succeeds_iff_active_match (fun pw hash => pw == hash)
    (fun i r => toString i ++ r) [exUser] "alice" "bad" "t"
  have hf : [exUser].find? (loginSelects "alice") = some exUser := by decide
  exact ⟨h.2.2.1 exUser hf (by decide), h.2.2.2 exUser hf⟩

/-- Erase the stored password hash, keeping every other column. Two users are
"equal up to the hash" when their erasures coincide. -/
def erasePassword (u : User) : User := { u with password := "" }

theorem find?_loginSelects_erase (u : String) (db1 db2 : List User)
    (h : db1.map erasePassword = db2.map erasePassword) :
    (db1.find? (loginSelects u)).map erasePassword
      = (db2.find? (loginSelects u)).map erasePassword := by
  have hcomm : ∀ db : List User,
      (db.find? (loginSelects u)).map erasePassword
        = (db.map erasePassword).find? (loginSelects u) := by
    intro db
    rw [List.find?_map]
    rfl
  rw [hcomm db1, hcomm db2, h]

theorem find?_id_erase (uid : Nat) (db1 db2 : List User)
    (h : db1.map erasePassword = db2.map erasePassword) :
    (db1.find? (fun x => x.id == uid)).map erasePassword
      = (db2.find? (fun x => x.id == uid)).map erasePassword := by
  have hcomm : ∀ db : List User,
      (db.find? (fun x => x.id == uid)).map erasePassword
        = (db.map erasePassword).find? (fun x => x.id == uid) := by
    intro db
    rw [List.find?_map]
    rfl
  rw [hcomm db1, hcomm db2, h]

theorem erase_eq_fields {u1 u2 : User} (h : erasePassword u1 = erasePassword u2) :
    u1.id = u2.id ∧ u1.username = u2.username ∧ u1.email = u2.email
      ∧ u1.full_name = u2.full_name ∧ u1.role = u2.role
      ∧ u1.department = u2.department ∧ u1.created_at = u2.created_at := by
  have h1 := congrArg User.id h
  have h2 := congrArg User.username h
  have h3 := congrArg User.email h
  have h4 := congrArg User.full_name h
  have h5 := congrArg User.role h
  have h6 := congrArg User.department h
  have h7 := congrArg User.created_at h
  exact ⟨h1, h2, h3, h4, h5, h6, h7⟩

/-- C10: the stored password hash never interferes with a successful response
body. For any two user tables that agree on everything except the password
column, the profile endpoint answers identically (its SELECT lists only
non-password columns), and whenever both logins succeed their success bodies
— message, token (signed over id and role only) and shaped user — are
identical; the shaped user and profile row types carry no password field at
all. -/
theorem password_hash_noninterference
    (db1 db2 : List User) (uid : Nat)
    (verify1 verify2 : String → String → Bool)
    (tokenSign : Nat → String → String) (u p now : String)
    (hdb : db1.map erasePassword = db2.map erasePassword) :
    getProfile db1 uid = getProfile db2 uid
      ∧ ∀ m1 t1 pu1 m2 t2 pu2,
          (login verify1 tokenSign db1 u p now).1 = LoginResp.success m1 t1 pu1 →
          (login verify2 tokenSign db2 u p now).1 = LoginResp.success m2 t2 pu2 →
          m1 = m2 ∧ t1 = t2 ∧ pu1 = pu2 := by
  constructor
  · have hfind := find?_id_erase uid db1 db2 hdb
    unfold getProfile
    cases h1 : db1.find? (fun x => x.id == uid) with
    | none =>
      cases h2 : db2.find? (fun x => x.id == uid) with
      | none => rfl
      | some u2 => rw [h1, h2] at hfind; cases hfind
    | some u1 =>
      cases h2 : db2.find? (fun x => x.id == uid) with
      | none => rw [h1, h2] at hfind; cases hfind
      | some u2 =>
        rw [h1, h2] at hfind
        simp only [Option.map_some'] at hfind
        obtain ⟨hid, hun, hem, hfn, hro, hde, hca⟩ :=
          erase_eq_fields (Option.some.injEq _ _ ▸ hfind)
        simp [hid, hun, hem, hfn, hro, hde, hca]
  · intro m1 t1 pu1 m2 t2 pu2 h1 h2
    have hfind := find?_loginSelects_erase u db1 db2 hdb
    cases hf1 : db1.find? (loginSelects u) with
    | none =>
      rw [login_none verify1 tokenSign db1 u p now hf1] at h1
      cases h1
    | some user1 =>
      cases hf2 : db2.find? (loginSelects u) with
      | none =>
        rw [login_none verify2 tokenSign db2 u p now hf2] at h2
        cases h2
      | some user2 =>
        rw [hf1, hf2] at hfind
        simp only [Option.map_some'] at hfind
        obtain ⟨hid, hun, hem, hfn, hro, hde, hca⟩ :=
          erase_eq_fields (Option.some.injEq _ _ ▸ hfind)
        rw [login_found verify1 tokenSign db1 u p now user1 hf1] at h1
        rw [login_found verify2 tokenSign db2 u p now user2 hf2] at h2
        by_cases hv1 : verify1 p user1.password = true
        · by_cases hv2 : verify2 p user2.password = true
          · rw [if_pos hv1] at h1
            rw [if_pos hv2] at h2
            cases h1
            cases h2
            refine ⟨rfl, ?_, ?_⟩
            · unfold generateToken
              rw [hid, hro]
            · simp [hid, hun, hem, hfn, hro, hde]
          · rw [if_neg hv2] at h2; cases h2
        · rw [if_neg hv1] at h1; cases h1

/-- A user identical to `exUser` except for the stored password hash. -/
def exUser2 : User := { exUser with password := "h2" }

/-- Witness for C10: the two concrete users differ only in the stored hash and
the profile endpoint answers identically for both tables. -/
theorem password_hash_noninterference_witness :
    getProfile [exUser] 1 = getProfile [exUser2] 1
      ∧ exUser.password ≠ exUser2.password := by
  refine ⟨(password_hash_noninterference [exUser] [exUser2] 1
    (fun pw hash => pw == hash) (fun pw hash => pw == hash)
    (fun i r => toString i ++ r) "alice" "h1" "t" (by decide)).1, by decide⟩

end SIAF
